import Mathlib

/-!
Shallow embedding of the FastLink client library (src/index.js,
src/src/events/event/trackEnd.js, src/src/events/track/trackException.js).

Modelling conventions:
* JS objects become Lean structures; the global `Nodes`, `Players` and
  `sessionIds` maps become functions `String → Option _` updated with
  `Function.update`.
* A player object in the source carries either a `queue` field (queue mode)
  or a `track` field (single-track mode); we give the Lean `Player` record
  both fields, initialised like the source initialises whichever field it
  creates (`queue = []`, `track = null`).
* Floating-point stats arithmetic `(systemLoad / cores) * 100` is modelled
  over `ℚ`; `systemLoad` is a non-negative float and `cores` a positive
  integer on a real node, where rational and float comparisons agree.
* `Array.prototype.sort` with comparator `x - y` is a stable sort by the
  comparator key (guaranteed by the ECMAScript specification); any stable
  sort with respect to the same total preorder yields the same list, so we
  use `List.insertionSort`, whose `orderedInsert` places a new element
  before later-inserted ties, matching stability.
* Outbound REST calls (`makeRequest` / `makeNodeRequest`) are pure effects
  here: each handler returns the list of requests it issues.
* `Event.emit` of the per-handler domain event is returned as a list of
  `DomainEvent`s.  The unconditional `Event.emit('debug', …)` string logging
  in trackException and `console.log` debug output carry no player data and
  are not modelled.
-/

namespace FastLink

/-- Last-reported load snapshot of a node (the fields the selection
algorithm reads from `node.stats`). -/
structure NodeStats where
  systemLoad : ℚ
  cores : ℕ
deriving DecidableEq

/-- One entry of the `Nodes` registry: `{...node, connected, sessionId}`
plus the node-side player-slot map written by `Player.destroy`
(`Nodes[node].players[guildId] = null`); a cleared slot is `none`. -/
structure NodeEntry where
  hostname : String
  connected : Bool
  sessionId : Option String
  stats : NodeStats
  slots : String → Option Unit

instance : Inhabited NodeEntry :=
  ⟨{ hostname := "", connected := false, sessionId := none,
     stats := { systemLoad := 0, cores := 0 }, slots := fun _ => none }⟩

/-- The sort key of `getRecommendedNode`:
`(node.stats.systemLoad / node.stats.cores) * 100`. -/
def score (n : NodeEntry) : ℚ :=
  n.stats.systemLoad / (n.stats.cores : ℚ) * 100

/-- The comparator order used by `getRecommendedNode`'s sort. -/
def nodeLE (a b : NodeEntry) : Prop := score a ≤ score b

instance : DecidableRel nodeLE :=
  fun a b => inferInstanceAs (Decidable (score a ≤ score b))

instance : IsTotal NodeEntry nodeLE := ⟨fun a b => le_total (score a) (score b)⟩

instance : IsTrans NodeEntry nodeLE := ⟨fun _ _ _ => le_trans⟩

/-- `getRecommendedNode()` (src/index.js:110-116): filter the registry to
connected nodes, fail when none is connected, otherwise stable-sort by
`score` ascending and return the first element.  The registry is given as
the list `Object.values(Nodes)` in insertion order. -/
def getRecommendedNode (nodes : List NodeEntry) : Except String NodeEntry :=
  match nodes.filter (fun n => n.connected) with
  | [] => Except.error "No node connected."
  | n :: rest => Except.ok ((List.insertionSort nodeLE (n :: rest)).headI)

/-- Decidable test used to state the selection spec: `n` scores no worse
than every element of `l`. -/
def isMinIn (l : List NodeEntry) (n : NodeEntry) : Bool :=
  l.all fun m => decide (score n ≤ score m)

/-- The relevant part of the global `Config` set by `connectNodes`
(src/index.js:45-50). -/
structure Config where
  botId : String
  queue : Bool
deriving DecidableEq

/-- One entry of the `Players` registry (src/index.js:151-160).  The source
object carries a `queue` field when `Config.queue` is set and a `track`
field otherwise; we carry both, with the source's initial values. -/
structure Player where
  connected : Bool
  playing : Bool
  paused : Bool
  volume : Option ℤ
  node : String
  queue : List String
  track : Option String
deriving DecidableEq

/-- The player record inserted by `Player.createPlayer`
(src/index.js:151-160): `connected=false, playing=false, paused=false,
volume=null`, with `queue=[]` in queue mode and `track=null` otherwise. -/
def initialPlayer (node : String) : Player :=
  { connected := false, playing := false, paused := false, volume := none,
    node := node, queue := [], track := none }

/-- The `{token, endpoint, sessionId}` record sent as `body.voice`. -/
structure VoiceData where
  token : String
  endpoint : String
  sessionId : String
deriving DecidableEq

/-- The `body` argument of `Player.update`.  `encodedTrack` distinguishes
absent (`none`, JS `undefined`), JS `null` (`some none`) and a string
(`some (some s)`); the other fields distinguish absent from present. -/
structure UpdateBody where
  encodedTrack : Option (Option String)
  encodedTracks : Option (List String)
  paused : Option Bool
  voice : Option VoiceData
deriving DecidableEq

/-- A body `{encodedTrack: t}`. -/
def trackBody (t : String) : UpdateBody :=
  { encodedTrack := some (some t), encodedTracks := none, paused := none,
    voice := none }

/-- A body `{encodedTracks: ts}`. -/
def tracksBody (ts : List String) : UpdateBody :=
  { encodedTrack := none, encodedTracks := some ts, paused := none,
    voice := none }

/-- A body `{voice: {token, endpoint, sessionId}}` as built by
`handleRaw` (src/index.js:611-617). -/
def voiceBody (token endpoint sessionId : String) : UpdateBody :=
  { encodedTrack := none, encodedTracks := none, paused := none,
    voice := some { token := token, endpoint := endpoint,
                    sessionId := sessionId } }

/-- The JSON body of an outbound request: either the single-track body
`{encodedTrack: queue[0]}` built by trackEnd / trackException / skipTrack
(where `none` models JS `undefined`, i.e. an empty queue read), or the full
`update` body forwarded verbatim. -/
inductive ReqBody where
  | track (t : Option String)
  | full (b : UpdateBody)
deriving DecidableEq

/-- An outbound REST call issued against a node, identified by the node
hostname and the guild key in the request path.  `noReplace` is the value
of the `?noReplace=` query parameter when the source appends one. -/
inductive Req where
  | patch (node : String) (guildId : String) (body : ReqBody)
      (noReplace : Option Bool)
  | delete (node : String) (guildId : String)
deriving DecidableEq

/-- The payload of a TrackEndEvent / TrackExceptionEvent frame as read by
the handlers: `guildId`, `reason` (unused by trackException) and the
finished `track`. -/
structure EndPayload where
  guildId : String
  reason : String
  track : String
deriving DecidableEq

/-- The record passed to `Event.emit` by trackEnd / trackException:
`{node: Nodes[node], guildId, player, track}` under the handler's event
name. -/
structure DomainEvent where
  name : String
  node : Option NodeEntry
  guildId : String
  player : Player
  track : String

/-- The result record of `Player.skipTrack`. -/
structure SkipResult where
  skipped : Bool
  queue : List String
  error : Option String
deriving DecidableEq

/-- The `Players` registry. -/
def PlayersMap : Type := String → Option Player

/-- The pending `sessionIds` map of the voice correlator. -/
def SessionIds : Type := String → Option String

/-- `Player.update(body, noReplace)` (src/index.js:249-286).  Returns the
updated player together with the list of REST calls issued; `Except.error`
models a thrown `Error`.  The body-shape validation throws are outside the
typed model.  Control flow mirrors the source:
the single-track branch pushes onto the queue and returns early unless the
push made the queue a singleton (`queue.length != 1`); a non-`undefined`
`encodedTrack` without queueing resets the local `queue` bookkeeping; the
batch branch requires queueing, adopts the batch (PATCHing its first
element) on an empty queue and appends otherwise; a `paused` flag mirrors
into `playing`/`paused`; everything else falls through to the final PATCH
with `?noReplace=` equal to `noReplace !== true ? false : true`. -/
def update (cfg : Config) (guildId : String) (p0 : Player) (body : UpdateBody)
    (noReplace : Option Bool) : Except String (Player × List Req) :=
  let r1 : Player ⊕ Player :=
    match body.encodedTrack with
    | some (some s) =>
      if s != "" && cfg.queue then
        let p1 := { p0 with queue := p0.queue ++ [s] }
        if p1.queue.length != 1 then Sum.inl p1 else Sum.inr p1
      else Sum.inr { p0 with queue := [] }
    | some none => Sum.inr { p0 with queue := [] }
    | none => Sum.inr p0
  match r1 with
  | Sum.inl p1 => Except.ok (p1, [])
  | Sum.inr p1 =>
    match body.encodedTracks with
    | some ts =>
      if !cfg.queue then
        Except.error "Queue is disabled. (Config.queue = false)"
      else if p1.queue.length == 0 then
        Except.ok ({ p1 with queue := ts },
          [Req.patch p0.node guildId (ReqBody.track ts.head?) none])
      else
        Except.ok ({ p1 with queue := p1.queue ++ ts }, [])
    | none =>
      let p2 :=
        match body.paused with
        | some b => { p1 with playing := !b, paused := b }
        | none => p1
      Except.ok (p2,
        [Req.patch p0.node guildId (ReqBody.full body)
          (some (noReplace == some true))])

/-- `Player.skipTrack()` (src/index.js:335-349): requires queueing; on a
queue with fewer than one element returns `{skipped:false, queue:[],
error}` without a REST call; otherwise shifts the queue and PATCHes the new
head (`queue[0]`, JS `undefined` when the queue emptied). -/
def skipTrack (cfg : Config) (guildId : String) (p : Player) :
    Except String (SkipResult × Player × List Req) :=
  if !cfg.queue then
    Except.error "Queue is disabled. (Config.queue = false)"
  else if p.queue.length < 1 then
    Except.ok ({ skipped := false, queue := [],
                 error := some "No tracks in queue." }, p, [])
  else
    let p1 := { p with queue := p.queue.tail }
    Except.ok ({ skipped := true, queue := p1.queue, error := none }, p1,
      [Req.patch p.node guildId (ReqBody.track p1.queue.head?) none])

/-- `Player.createPlayer()` (src/index.js:145-163): throws when a player
already exists for the guild, otherwise selects a node via
`getRecommendedNode` and inserts the fresh player record.  Returns the new
registry together with the chosen hostname. -/
def createPlayer (nodes : List NodeEntry) (players : PlayersMap)
    (guildId : String) : Except String (PlayersMap × String) :=
  if (players guildId).isSome then
    Except.error
      "Player already exists. Use playerCreated() to check if a player exists."
  else
    match getRecommendedNode nodes with
    | Except.error e => Except.error e
    | Except.ok n =>
      Except.ok
        (Function.update players guildId (some (initialPlayer n.hostname)),
         n.hostname)

/-- `Player.destroy()` (src/index.js:293-299): writes a null sentinel into
the node-side slot map `Nodes[this.node].players[this.guildId]` and issues
a REST DELETE.  The `Players` registry itself is returned untouched — the
source never removes the entry.  `this.node` reads
`Players[this.guildId]?.node`; a missing player or node entry makes the JS
property write throw a `TypeError`, modelled as `Except.error`. -/
def destroy (nodes : String → Option NodeEntry) (players : PlayersMap)
    (guildId : String) :
    Except String ((String → Option NodeEntry) × PlayersMap × List Req) :=
  match players guildId with
  | none => Except.error "TypeError"
  | some p =>
    match nodes p.node with
    | none => Except.error "TypeError"
    | some n =>
      Except.ok
        (Function.update nodes p.node
           (some { n with slots := Function.update n.slots guildId none }),
         players,
         [Req.delete p.node guildId])

/-- The trackEnd handler (src/src/events/event/trackEnd.js:3-35).  With a
missing player the frame is a logged no-op.  With queueing enabled and a
reason other than `"replaced"` the queue is shifted; if it is still
non-empty the new head is PATCHed and the handler returns early — before
the `playing`/`volume` reset and before the `Event.emit`.  Otherwise
(queue disabled or reason `"replaced"`) `track` is nulled; all non-early
paths reset `playing`/`volume` and emit the `trackEnd` domain event. -/
def trackEnd (cfg : Config) (nodes : String → Option NodeEntry)
    (node : String) (players : PlayersMap) (payload : EndPayload) :
    PlayersMap × List Req × List DomainEvent :=
  match players payload.guildId with
  | none => (players, [], [])
  | some p =>
    if cfg.queue && payload.reason != "replaced" then
      let p1 := { p with queue := p.queue.tail }
      if p1.queue.length > 0 then
        (Function.update players payload.guildId (some p1),
         [Req.patch node payload.guildId (ReqBody.track p1.queue.head?) none],
         [])
      else
        let p2 := { p1 with playing := false, volume := none }
        (Function.update players payload.guildId (some p2), [],
         [{ name := "trackEnd", node := nodes node,
            guildId := payload.guildId, player := p2,
            track := payload.track }])
    else
      let p2 := { p with track := none, playing := false, volume := none }
      (Function.update players payload.guildId (some p2), [],
       [{ name := "trackEnd", node := nodes node,
          guildId := payload.guildId, player := p2,
          track := payload.track }])

/-- The trackException handler
(src/src/events/track/trackException.js:3-31).  Identical to `trackEnd`
except that the queue shift is guarded only by `config.queue` — the payload
reason is never consulted — and the emitted event is named
`trackException`. -/
def trackException (cfg : Config) (nodes : String → Option NodeEntry)
    (node : String) (players : PlayersMap) (payload : EndPayload) :
    PlayersMap × List Req × List DomainEvent :=
  match players payload.guildId with
  | none => (players, [], [])
  | some p =>
    if cfg.queue then
      let p1 := { p with queue := p.queue.tail }
      if p1.queue.length > 0 then
        (Function.update players payload.guildId (some p1),
         [Req.patch node payload.guildId (ReqBody.track p1.queue.head?) none],
         [])
      else
        let p2 := { p1 with playing := false, volume := none }
        (Function.update players payload.guildId (some p2), [],
         [{ name := "trackException", node := nodes node,
            guildId := payload.guildId, player := p2,
            track := payload.track }])
    else
      let p2 := { p with track := none, playing := false, volume := none }
      (Function.update players payload.guildId (some p2), [],
       [{ name := "trackException", node := nodes node,
          guildId := payload.guildId, player := p2,
          track := payload.track }])

/-- The two gateway payload shapes consumed by `handleRaw`, discriminated
on `data.t`. -/
inductive RawData where
  | voiceServerUpdate (guildId token endpoint : String)
  | voiceStateUpdate (guildId sessionId userId : String)
  | other
deriving DecidableEq

/-- `handleRaw(data)` (src/index.js:602-631).  A `VOICE_SERVER_UPDATE`
is dropped when `!sessionIds[data.d.guild_id]` — a JS falsiness check, so
both a missing pending entry and an empty-string pending session id return
at once; with a truthy pending entry but no player for the guild it
returns without touching the pending map; otherwise it calls `update`
with the merged voice credentials and deletes the pending entry (the
deletion happens in JS whether or not the async `update` later rejects —
with a voice-only body it cannot).  A `VOICE_STATE_UPDATE` for the bot's
own identity (over)writes the pending entry; anything else is ignored. -/
def handleRaw (cfg : Config) (players : PlayersMap) (sessionIds : SessionIds)
    (data : RawData) : PlayersMap × SessionIds × List Req :=
  match data with
  | RawData.voiceServerUpdate g token endpoint =>
    match sessionIds g with
    | none => (players, sessionIds, [])
    | some sid =>
      if sid == "" then (players, sessionIds, [])
      else
        match players g with
        | none => (players, sessionIds, [])
        | some p =>
          match update cfg g p (voiceBody token endpoint sid) none with
          | Except.ok pr =>
            (Function.update players g (some pr.1),
             Function.update sessionIds g none, pr.2)
          | Except.error _ =>
            (players, Function.update sessionIds g none, [])
  | RawData.voiceStateUpdate g sid userId =>
    if userId == cfg.botId then
      (players, Function.update sessionIds g (some sid), [])
    else (players, sessionIds, [])
  | RawData.other => (players, sessionIds, [])

/-- `List.find?` only depends on the predicate's values on the list. -/
theorem find?_eq_of_agree {α : Type} (p q : α → Bool) :
    ∀ l : List α, (∀ a ∈ l, p a = q a) → l.find? p = l.find? q
  | [], _ => rfl
  | a :: l, h => by
    have ha : p a = q a := h a (List.mem_cons_self a l)
    by_cases hq : q a = true
    · rw [List.find?_cons_of_pos l (ha ▸ hq), List.find?_cons_of_pos l hq]
    · rw [List.find?_cons_of_neg l (fun hpa => hq (ha ▸ hpa)),
        List.find?_cons_of_neg l hq,
        find?_eq_of_agree p q l (fun b hb => h b (List.mem_cons_of_mem a hb))]

/-- The head of a list sorted by `nodeLE` scores no worse than any of its
elements. -/
theorem headI_le_of_sorted {b : NodeEntry} {s : List NodeEntry}
    (hs : List.Sorted nodeLE (b :: s)) : ∀ m ∈ b :: s, score b ≤ score m := by
  intro m hm
  rcases List.mem_cons.mp hm with h | h
  · exact h ▸ le_refl (score b)
  · exact List.rel_of_sorted_cons hs m h

/-- The head of the stable sort used by `getRecommendedNode` is exactly the
first element of the input that scores no worse than every element — i.e.
the minimum with ties resolved to the earlier element. -/
theorem find?_isMinIn_eq_headI :
    ∀ l : List NodeEntry, l ≠ [] →
      l.find? (isMinIn l) = some (List.insertionSort nodeLE l).headI := by
  intro l
  induction l with
  | nil => intro h; exact absurd rfl h
  | cons a l ih =>
    intro _
    rcases hl : l with _ | ⟨x, xs⟩
    · simp [isMinIn, List.insertionSort, List.orderedInsert, List.find?]
    · rw [← hl]
      have hlne : l ≠ [] := by rw [hl]; exact List.cons_ne_nil x xs
      have hsne : List.insertionSort nodeLE l ≠ [] := by
        intro hcon
        exact hlne (List.Perm.eq_nil ((List.perm_insertionSort nodeLE l).symm.trans
          (hcon ▸ List.Perm.refl _)))
      rcases hns : List.insertionSort nodeLE l with _ | ⟨b, s'⟩
      · exact absurd hns hsne
      have hsorted : List.Sorted nodeLE (b :: s') :=
        hns ▸ List.sorted_insertionSort nodeLE l
      have hperm : (b :: s').Perm l :=
        hns ▸ List.perm_insertionSort nodeLE l
      have hbl : b ∈ l := hperm.mem_iff.mp (List.mem_cons_self b s')
      have hbmin : ∀ m ∈ l, score b ≤ score m := fun m hm =>
        headI_le_of_sorted hsorted m (hperm.mem_iff.mpr hm)
      have hih := ih hlne
      rw [hns] at hih
      have hins : List.insertionSort nodeLE (a :: l) =
          List.orderedInsert nodeLE a (b :: s') := by
        rw [List.insertionSort, hns]
      by_cases hab : nodeLE a b
      · have hmin : ∀ m ∈ a :: l, score a ≤ score m := by
          intro m hm
          rcases List.mem_cons.mp hm with h | h
          · exact h ▸ le_refl (score a)
          · exact le_trans hab (hbmin m h)
        have hpa : isMinIn (a :: l) a = true := by
          rw [isMinIn, List.all_eq_true]
          intro m hm
          exact decide_eq_true (hmin m hm)
        rw [List.find?_cons_of_pos l hpa, hins, List.orderedInsert, if_pos hab]
        rfl
      · have hba : score b < score a := lt_of_not_le hab
        have hpa : ¬ isMinIn (a :: l) a = true := by
          rw [isMinIn, List.all_eq_true]
          intro hall
          exact hab (of_decide_eq_true (hall b (List.mem_cons_of_mem a hbl)))
        rw [List.find?_cons_of_neg l hpa, hins, List.orderedInsert, if_neg hab]
        have hagree : ∀ m ∈ l, isMinIn (a :: l) m = isMinIn l m := by
          intro m hm
          by_cases hmmin : isMinIn l m = true
          · have hma : score m ≤ score a :=
              le_of_lt (lt_of_le_of_lt
                (of_decide_eq_true ((List.all_eq_true.mp hmmin) b hbl)) hba)
            rw [hmmin, isMinIn, List.all_eq_true]
            intro x hx
            rcases List.mem_cons.mp hx with h | h
            · exact decide_eq_true (h ▸ hma)
            · exact (List.all_eq_true.mp hmmin) x h
          · have hfalse : isMinIn l m = false := Bool.eq_false_iff.mpr hmmin
            have hl' : (l.all fun x => decide (score m ≤ score x)) = false := hfalse
            rw [hfalse, isMinIn, List.all_cons, hl', Bool.and_false]
        rw [find?_eq_of_agree (isMinIn (a :: l)) (isMinIn l) l hagree, hih]
        rfl

/-- C1: on every node registry with at least one connected node,
`getRecommendedNode` returns a connected, registered node of minimal
`(systemLoad / cores) * 100` score, and it is exactly the first connected
node (in registration order) attaining the minimum, as witnessed by
`find?` over the connected sublist; with zero connected nodes it fails
with the "No node connected." condition however many nodes are
registered. -/
theorem getRecommendedNode_correct (nodes : List NodeEntry) :
    ((∃ n ∈ nodes, n.connected = true) →
      ∃ best, getRecommendedNode nodes = Except.ok best ∧
        best ∈ nodes ∧ best.connected = true ∧
        (∀ m ∈ nodes, m.connected = true → score best ≤ score m) ∧
        (nodes.filter fun n => n.connected).find?
            (isMinIn (nodes.filter fun n => n.connected)) = some best) ∧
    ((∀ n ∈ nodes, n.connected = false) →
      getRecommendedNode nodes = Except.error "No node connected.") := by
  constructor
  · rintro ⟨n, hn, hc⟩
    have hmem : n ∈ nodes.filter (fun n => n.connected) :=
      List.mem_filter.mpr ⟨hn, hc⟩
    rcases hfil : nodes.filter (fun n => n.connected) with _ | ⟨x, xs⟩
    · rw [hfil] at hmem
      exact absurd hmem (List.not_mem_nil n)
    have hfind := find?_isMinIn_eq_headI (x :: xs) (List.cons_ne_nil x xs)
    have hsne : List.insertionSort nodeLE (x :: xs) ≠ [] := by
      intro hcon
      have := List.Perm.eq_nil
        ((List.perm_insertionSort nodeLE (x :: xs)).symm.trans
          (hcon ▸ List.Perm.refl _))
      exact List.cons_ne_nil x xs this
    rcases hns : List.insertionSort nodeLE (x :: xs) with _ | ⟨b, s'⟩
    · exact absurd hns hsne
    have hsorted : List.Sorted nodeLE (b :: s') :=
      hns ▸ List.sorted_insertionSort nodeLE (x :: xs)
    have hperm : (b :: s').Perm (x :: xs) :=
      hns ▸ List.perm_insertionSort nodeLE (x :: xs)
    have hbfil : b ∈ nodes.filter (fun n => n.connected) := by
      rw [hfil]
      exact hperm.mem_iff.mp (List.mem_cons_self b s')
    have hbmin : ∀ m ∈ nodes, m.connected = true → score b ≤ score m := by
      intro m hm hmc
      refine headI_le_of_sorted hsorted m (hperm.mem_iff.mpr ?_)
      rw [← hfil]
      exact List.mem_filter.mpr ⟨hm, hmc⟩
    refine ⟨b, ?_, (List.mem_filter.mp hbfil).1, (List.mem_filter.mp hbfil).2,
      hbmin, ?_⟩
    · simp only [getRecommendedNode, hfil]
      rw [hns]
      rfl
    · rw [hfil, hfind, hns]
      rfl
  · intro h
    have hfil : nodes.filter (fun n => n.connected) = [] := by
      rw [List.filter_eq_nil_iff]
      intro a ha
      rw [h a ha]
      exact Bool.false_ne_true
    simp only [getRecommendedNode, hfil]

/-- A connected sample node used by closed witness statements. -/
def wNodeA : NodeEntry :=
  { hostname := "a", connected := true, sessionId := some "s1",
    stats := { systemLoad := 1, cores := 2 }, slots := fun _ => none }

/-- A second connected sample node with a higher load score. -/
def wNodeB : NodeEntry :=
  { hostname := "b", connected := true, sessionId := some "s2",
    stats := { systemLoad := 3, cores := 1 }, slots := fun _ => none }

/-- A disconnected sample node. -/
def wNodeC : NodeEntry :=
  { hostname := "c", connected := false, sessionId := none,
    stats := { systemLoad := 0, cores := 1 }, slots := fun _ => none }

/-- Witness for C1: the selection theorem applied to a concrete two-node
registry and to a concrete registry with no connected node. -/
theorem getRecommendedNode_correct_witness :
    (∃ best, getRecommendedNode [wNodeA, wNodeB] = Except.ok best ∧
        best ∈ [wNodeA, wNodeB] ∧ best.connected = true ∧
        (∀ m ∈ [wNodeA, wNodeB], m.connected = true → score best ≤ score m) ∧
        ([wNodeA, wNodeB].filter fun n => n.connected).find?
            (isMinIn ([wNodeA, wNodeB].filter fun n => n.connected)) =
          some best) ∧
    getRecommendedNode [wNodeC] = Except.error "No node connected." :=
  ⟨(getRecommendedNode_correct [wNodeA, wNodeB]).1
      ⟨wNodeA, List.mem_cons_self wNodeA [wNodeB], rfl⟩,
   (getRecommendedNode_correct [wNodeC]).2 (by
      intro n hn
      rcases List.mem_cons.mp hn with h | h
      · rw [h]; rfl
      · exact absurd h (List.not_mem_nil n))⟩

/-- C2: with queueing enabled, on a fresh player `update({encodedTrack:"A"})`
issues exactly one PATCH (carrying `"A"`) and `update({encodedTrack:"B"})`
then appends without any remote call, leaving the queue `["A","B"]`; a
subsequent TrackEndEvent with reason `"finished"` pops `"A"`, issues one
PATCH setting `"B"` as the current track, and leaves the queue `["B"]`. -/
theorem queueScenario_correct (cfg : Config) (hq : cfg.queue = true)
    (gid nodeHost : String) (nodes : String → Option NodeEntry) :
    ∃ p1 p2 ps3 p3,
      update cfg gid (initialPlayer nodeHost) (trackBody "A") none =
        Except.ok (p1,
          [Req.patch nodeHost gid (ReqBody.full (trackBody "A")) (some false)]) ∧
      p1.queue = ["A"] ∧
      update cfg gid p1 (trackBody "B") none = Except.ok (p2, []) ∧
      p2.queue = ["A", "B"] ∧
      trackEnd cfg nodes nodeHost
          (Function.update (fun _ => none) gid (some p2))
          { guildId := gid, reason := "finished", track := "A" } =
        (ps3, [Req.patch nodeHost gid (ReqBody.track (some "B")) none], []) ∧
      ps3 gid = some p3 ∧ p3.queue = ["B"] := by
  rcases cfg with ⟨bid, q⟩
  cases hq
  refine ⟨{ initialPlayer nodeHost with queue := ["A"] },
    { initialPlayer nodeHost with queue := ["A", "B"] },
    Function.update (Function.update (fun _ => none) gid
        (some { initialPlayer nodeHost with queue := ["A", "B"] })) gid
      (some { initialPlayer nodeHost with queue := ["B"] }),
    { initialPlayer nodeHost with queue := ["B"] },
    rfl, rfl, rfl, rfl, ?_, Function.update_same gid _ _, rfl⟩
  simp only [trackEnd, Function.update_same]
  rfl

/-- Witness for C2: the scenario theorem at a concrete configuration,
guild and node. -/
theorem queueScenario_correct_witness :
    ∃ p1 p2 ps3 p3,
      update { botId := "bot", queue := true } "g" (initialPlayer "n")
          (trackBody "A") none =
        Except.ok (p1,
          [Req.patch "n" "g" (ReqBody.full (trackBody "A")) (some false)]) ∧
      p1.queue = ["A"] ∧
      update { botId := "bot", queue := true } "g" p1 (trackBody "B") none =
        Except.ok (p2, []) ∧
      p2.queue = ["A", "B"] ∧
      trackEnd { botId := "bot", queue := true } (fun _ => none) "n"
          (Function.update (fun _ => none) "g" (some p2))
          { guildId := "g", reason := "finished", track := "A" } =
        (ps3, [Req.patch "n" "g" (ReqBody.track (some "B")) none], []) ∧
      ps3 "g" = some p3 ∧ p3.queue = ["B"] :=
  queueScenario_correct { botId := "bot", queue := true } rfl "g" "n"
    (fun _ => none)

/-- Counterexample for C3: with queueing enabled, a TrackEndEvent whose
reason is not `"replaced"` arriving while the player's queue is empty
removes nothing — `queue.shift()` on an empty array is a no-op — so the
claim that any non-"replaced" reason removes exactly one element fails. -/
theorem trackEnd_emptyQueue_counterexample :
    ∃ p2, (trackEnd { botId := "bot", queue := true } (fun _ => none) "n"
        (Function.update (fun _ => none) "g" (some (initialPlayer "n")))
        { guildId := "g", reason := "finished", track := "A" }).1 "g" =
          some p2 ∧
      ("finished" : String) ≠ "replaced" ∧
      ¬ p2.queue.length + 1 = (initialPlayer "n").queue.length := by
  refine ⟨{ initialPlayer "n" with
      queue := [], playing := false, volume := none },
    ?_, by decide, by decide⟩
  simp only [trackEnd, Function.update_same]
  rfl

/-- C3 amended: with queueing enabled, a TrackEndEvent with reason
`"replaced"` never removes an element from the queue, and any other reason
replaces the queue by its tail — removing the head when the queue is
non-empty and nothing when it is already empty. -/
theorem trackEnd_pop_amended (cfg : Config)
    (nodes : String → Option NodeEntry) (nodeHost : String)
    (players : PlayersMap) (payload : EndPayload) (p : Player)
    (hq : cfg.queue = true) (hp : players payload.guildId = some p) :
    ∃ p2, (trackEnd cfg nodes nodeHost players payload).1 payload.guildId =
        some p2 ∧
      (payload.reason = "replaced" → p2.queue = p.queue) ∧
      (payload.reason ≠ "replaced" → p2.queue = p.queue.tail) := by
  by_cases hr : payload.reason = "replaced"
  · refine ⟨{ p with track := none, playing := false, volume := none },
      ?_, fun _ => rfl, fun h => absurd hr h⟩
    simp [trackEnd, hp, hq, hr, Function.update_same]
  · have hcond : (cfg.queue && payload.reason != "replaced") = true := by
      simp [hq, bne_iff_ne, hr]
    by_cases hl : p.queue.tail.length > 0
    · refine ⟨{ p with queue := p.queue.tail },
        ?_, fun h => absurd h hr, fun _ => rfl⟩
      simp only [trackEnd, hp, hcond, if_true, if_pos hl, Function.update_same]
    · refine ⟨{ p with
        queue := p.queue.tail, playing := false, volume := none },
        ?_, fun h => absurd h hr, fun _ => rfl⟩
      simp only [trackEnd, hp, hcond, if_true, if_neg hl, Function.update_same]

/-- Witness for C3: the amended pop theorem applied to a concrete
queue-enabled player with queue `["A","B"]` and reason `"finished"`. -/
theorem trackEnd_pop_amended_witness :
    ∃ p2, (trackEnd { botId := "bot", queue := true } (fun _ => none) "n"
        (Function.update (fun _ => none) "g"
          (some { initialPlayer "n" with queue := ["A", "B"] }))
        { guildId := "g", reason := "finished", track := "A" }).1 "g" =
          some p2 ∧
      (("finished" : String) = "replaced" →
        p2.queue = ({ initialPlayer "n" with queue := ["A", "B"] }).queue) ∧
      (("finished" : String) ≠ "replaced" →
        p2.queue =
          ({ initialPlayer "n" with queue := ["A", "B"] }).queue.tail) :=
  trackEnd_pop_amended { botId := "bot", queue := true } (fun _ => none) "n"
    (Function.update (fun _ => none) "g"
      (some { initialPlayer "n" with queue := ["A", "B"] }))
    { guildId := "g", reason := "finished", track := "A" }
    { initialPlayer "n" with queue := ["A", "B"] }
    rfl (Function.update_same "g" _ _)

/-- Counterexample for C4: on a TrackEndEvent with reason `"replaced"`,
queueing enabled and queue `["A","B"]`, trackEnd leaves the queue intact
and issues no PATCH while trackException (which never consults the reason)
pops the head and PATCHes `"B"` — the two handlers do not implement the
identical policy. -/
theorem trackEnd_trackException_differ_counterexample :
    ¬ ((trackEnd { botId := "bot", queue := true } (fun _ => none) "n"
          (Function.update (fun _ => none) "g"
            (some { initialPlayer "n" with queue := ["A", "B"] }))
          { guildId := "g", reason := "replaced", track := "A" }).1 "g" =
        (trackException { botId := "bot", queue := true } (fun _ => none) "n"
          (Function.update (fun _ => none) "g"
            (some { initialPlayer "n" with queue := ["A", "B"] }))
          { guildId := "g", reason := "replaced", track := "A" }).1 "g" ∧
      (trackEnd { botId := "bot", queue := true } (fun _ => none) "n"
          (Function.update (fun _ => none) "g"
            (some { initialPlayer "n" with queue := ["A", "B"] }))
          { guildId := "g", reason := "replaced", track := "A" }).2.1 =
        (trackException { botId := "bot", queue := true } (fun _ => none) "n"
          (Function.update (fun _ => none) "g"
            (some { initialPlayer "n" with queue := ["A", "B"] }))
          { guildId := "g", reason := "replaced", track := "A" }).2.1) := by
  intro h
  have h2 := h.2
  simp only [trackEnd, trackException, Function.update_same] at h2
  exact List.noConfusion h2

/-- C4 amended: the two handlers produce the same resulting player state
and issue the same PATCH (or none) for every end reason other than
`"replaced"`; for `"replaced"` with queueing enabled they differ, trackEnd
skipping the queue pop that trackException performs. -/
theorem trackEnd_trackException_agree (cfg : Config)
    (nodes : String → Option NodeEntry) (nodeHost : String)
    (players : PlayersMap) (payload : EndPayload)
    (hr : payload.reason ≠ "replaced") :
    (trackEnd cfg nodes nodeHost players payload).1 =
      (trackException cfg nodes nodeHost players payload).1 ∧
    (trackEnd cfg nodes nodeHost players payload).2.1 =
      (trackException cfg nodes nodeHost players payload).2.1 := by
  have hbne : (payload.reason != "replaced") = true := by
    simp [bne_iff_ne, hr]
  cases hpl : players payload.guildId with
  | none => simp [trackEnd, trackException, hpl]
  | some p =>
    cases hq : cfg.queue with
    | false => simp [trackEnd, trackException, hpl, hq]
    | true =>
      refine ⟨?_, ?_⟩ <;>
        simp only [trackEnd, trackException, hpl, hq, hbne, Bool.and_self,
          Bool.true_and, if_true] <;>
        split_ifs <;> rfl

/-- Witness for C4: the agreement theorem at a concrete queue-enabled
player and a `"finished"` end reason. -/
theorem trackEnd_trackException_agree_witness :
    (trackEnd { botId := "bot", queue := true } (fun _ => none) "n"
        (Function.update (fun _ => none) "g"
          (some { initialPlayer "n" with queue := ["A", "B"] }))
        { guildId := "g", reason := "finished", track := "A" }).1 =
      (trackException { botId := "bot", queue := true } (fun _ => none) "n"
        (Function.update (fun _ => none) "g"
          (some { initialPlayer "n" with queue := ["A", "B"] }))
        { guildId := "g", reason := "finished", track := "A" }).1 ∧
    (trackEnd { botId := "bot", queue := true } (fun _ => none) "n"
        (Function.update (fun _ => none) "g"
          (some { initialPlayer "n" with queue := ["A", "B"] }))
        { guildId := "g", reason := "finished", track := "A" }).2.1 =
      (trackException { botId := "bot", queue := true } (fun _ => none) "n"
        (Function.update (fun _ => none) "g"
          (some { initialPlayer "n" with queue := ["A", "B"] }))
        { guildId := "g", reason := "finished", track := "A" }).2.1 :=
  trackEnd_trackException_agree { botId := "bot", queue := true }
    (fun _ => none) "n"
    (Function.update (fun _ => none) "g"
      (some { initialPlayer "n" with queue := ["A", "B"] }))
    { guildId := "g", reason := "finished", track := "A" } (by decide)

/-- Counterexample for C5: in the auto-advance case (player found, queue
`["A","B"]`, reason `"finished"`) trackEnd issues the PATCH for the new
head `"B"` but returns before `Event.emit` — no domain event is emitted,
refuting "re-emits in all cases". -/
theorem trackEnd_autoAdvance_noEmit_counterexample :
    (Function.update (fun _ => none) "g"
        (some { initialPlayer "n" with queue := ["A", "B"] }) "g").isSome =
      true ∧
    (trackEnd { botId := "bot", queue := true } (fun _ => none) "n"
        (Function.update (fun _ => none) "g"
          (some { initialPlayer "n" with queue := ["A", "B"] }))
        { guildId := "g", reason := "finished", track := "A" }).2.1 =
      [Req.patch "n" "g" (ReqBody.track (some "B")) none] ∧
    (trackEnd { botId := "bot", queue := true } (fun _ => none) "n"
        (Function.update (fun _ => none) "g"
          (some { initialPlayer "n" with queue := ["A", "B"] }))
        { guildId := "g", reason := "finished", track := "A" }).2.2 = [] := by
  refine ⟨?_, ?_, ?_⟩
  · simp [Function.update_same]
  · simp only [trackEnd, Function.update_same]
    rfl
  · simp only [trackEnd, Function.update_same]
    rfl

/-- C5 amended: whenever a player exists for the guild key, trackEnd and
trackException re-emit one domain event carrying the node entry, the guild
key, the player snapshot and the finished track — in every case except the
auto-advance case (queueing enabled, a non-"replaced" reason for trackEnd,
and a non-empty queue after the pop), where the handler returns right
after issuing the PATCH and emits nothing. -/
theorem handlers_emit_amended (cfg : Config)
    (nodes : String → Option NodeEntry) (nodeHost : String)
    (players : PlayersMap) (payload : EndPayload) (p : Player)
    (hp : players payload.guildId = some p) :
    ((cfg.queue = true ∧ payload.reason ≠ "replaced" ∧ p.queue.tail ≠ []) →
      (trackEnd cfg nodes nodeHost players payload).2.2 = []) ∧
    (¬ (cfg.queue = true ∧ payload.reason ≠ "replaced" ∧
          p.queue.tail ≠ []) →
      ∃ e, (trackEnd cfg nodes nodeHost players payload).2.2 = [e] ∧
        e.name = "trackEnd" ∧ e.node = nodes nodeHost ∧
        e.guildId = payload.guildId ∧ e.track = payload.track ∧
        (trackEnd cfg nodes nodeHost players payload).1 payload.guildId =
          some e.player) ∧
    ((cfg.queue = true ∧ p.queue.tail ≠ []) →
      (trackException cfg nodes nodeHost players payload).2.2 = []) ∧
    (¬ (cfg.queue = true ∧ p.queue.tail ≠ []) →
      ∃ e, (trackException cfg nodes nodeHost players payload).2.2 = [e] ∧
        e.name = "trackException" ∧ e.node = nodes nodeHost ∧
        e.guildId = payload.guildId ∧ e.track = payload.track ∧
        (trackException cfg nodes nodeHost players payload).1
            payload.guildId = some e.player) := by
  refine ⟨?_, ?_, ?_, ?_⟩
  · rintro ⟨hq, hr, ht⟩
    have hbne : (payload.reason != "replaced") = true := by
      simp [bne_iff_ne, hr]
    have ht' : 0 < p.queue.tail.length := List.length_pos.mpr ht
    have hlt := p.queue.length_tail
    have hlen : 1 < p.queue.length := by omega
    simp [trackEnd, hp, hq, hbne, hlen]
  · intro hneg
    by_cases hq : cfg.queue = true
    · by_cases hr : payload.reason = "replaced"
      · refine ⟨⟨"trackEnd", nodes nodeHost, payload.guildId,
            { p with track := none, playing := false, volume := none },
            payload.track⟩, ?_⟩
        simp [trackEnd, hp, hq, hr, Function.update_same]
      · have ht : p.queue.tail = [] := by
          by_contra hcon
          exact hneg ⟨hq, hr, hcon⟩
        have hbne : (payload.reason != "replaced") = true := by
          simp [bne_iff_ne, hr]
        have ht' : p.queue.tail.length = 0 := by
          rw [ht]
          rfl
        have hlt := p.queue.length_tail
        have hlen : ¬ 1 < p.queue.length := by omega
        refine ⟨⟨"trackEnd", nodes nodeHost, payload.guildId,
            { p with queue := p.queue.tail, playing := false, volume := none },
            payload.track⟩, ?_⟩
        simp [trackEnd, hp, hq, hbne, hlen, Function.update_same]
    · have hq' : cfg.queue = false := Bool.eq_false_iff.mpr hq
      refine ⟨⟨"trackEnd", nodes nodeHost, payload.guildId,
          { p with track := none, playing := false, volume := none },
          payload.track⟩, ?_⟩
      simp [trackEnd, hp, hq', Function.update_same]
  · rintro ⟨hq, ht⟩
    have ht' : 0 < p.queue.tail.length := List.length_pos.mpr ht
    have hlt := p.queue.length_tail
    have hlen : 1 < p.queue.length := by omega
    simp [trackException, hp, hq, hlen]
  · intro hneg
    by_cases hq : cfg.queue = true
    · have ht : p.queue.tail = [] := by
        by_contra hcon
        exact hneg ⟨hq, hcon⟩
      have ht' : p.queue.tail.length = 0 := by
        rw [ht]
        rfl
      have hlt := p.queue.length_tail
      have hlen : ¬ 1 < p.queue.length := by omega
      refine ⟨⟨"trackException", nodes nodeHost, payload.guildId,
          { p with queue := p.queue.tail, playing := false, volume := none },
          payload.track⟩, ?_⟩
      simp [trackException, hp, hq, hlen, Function.update_same]
    · have hq' : cfg.queue = false := Bool.eq_false_iff.mpr hq
      refine ⟨⟨"trackException", nodes nodeHost, payload.guildId,
          { p with track := none, playing := false, volume := none },
          payload.track⟩, ?_⟩
      simp [trackException, hp, hq', Function.update_same]

/-- Witness for C5: the amended emission theorem at a concrete
queue-disabled player, where both handlers emit their domain event. -/
theorem handlers_emit_amended_witness :
    ((({ botId := "bot", queue := false } : Config).queue = true ∧
        ("finished" : String) ≠ "replaced" ∧
        (initialPlayer "n").queue.tail ≠ []) →
      (trackEnd { botId := "bot", queue := false } (fun _ => none) "n"
        (Function.update (fun _ => none) "g" (some (initialPlayer "n")))
        { guildId := "g", reason := "finished", track := "A" }).2.2 = []) ∧
    (¬ (({ botId := "bot", queue := false } : Config).queue = true ∧
          ("finished" : String) ≠ "replaced" ∧
          (initialPlayer "n").queue.tail ≠ []) →
      ∃ e, (trackEnd { botId := "bot", queue := false } (fun _ => none) "n"
          (Function.update (fun _ => none) "g" (some (initialPlayer "n")))
          { guildId := "g", reason := "finished", track := "A" }).2.2 =
            [e] ∧
        e.name = "trackEnd" ∧ e.node = (fun _ => none) "n" ∧
        e.guildId = "g" ∧ e.track = "A" ∧
        (trackEnd { botId := "bot", queue := false } (fun _ => none) "n"
          (Function.update (fun _ => none) "g" (some (initialPlayer "n")))
          { guildId := "g", reason := "finished", track := "A" }).1 "g" =
          some e.player) ∧
    ((({ botId := "bot", queue := false } : Config).queue = true ∧
        (initialPlayer "n").queue.tail ≠ []) →
      (trackException { botId := "bot", queue := false } (fun _ => none) "n"
        (Function.update (fun _ => none) "g" (some (initialPlayer "n")))
        { guildId := "g", reason := "finished", track := "A" }).2.2 = []) ∧
    (¬ (({ botId := "bot", queue := false } : Config).queue = true ∧
          (initialPlayer "n").queue.tail ≠ []) →
      ∃ e, (trackException { botId := "bot", queue := false }
          (fun _ => none) "n"
          (Function.update (fun _ => none) "g" (some (initialPlayer "n")))
          { guildId := "g", reason := "finished", track := "A" }).2.2 =
            [e] ∧
        e.name = "trackException" ∧ e.node = (fun _ => none) "n" ∧
        e.guildId = "g" ∧ e.track = "A" ∧
        (trackException { botId := "bot", queue := false }
          (fun _ => none) "n"
          (Function.update (fun _ => none) "g" (some (initialPlayer "n")))
          { guildId := "g", reason := "finished", track := "A" }).1 "g" =
          some e.player) :=
  handlers_emit_amended { botId := "bot", queue := false } (fun _ => none) "n"
    (Function.update (fun _ => none) "g" (some (initialPlayer "n")))
    { guildId := "g", reason := "finished", track := "A" }
    (initialPlayer "n") (Function.update_same "g" _ _)

/-- Evidence for C6 (code bug): `destroy()` on an existing player returns
the `Players` registry unchanged — it only nulls the node-side slot and
issues the DELETE — so the entry for the guild is still present and a
subsequent `createPlayer()` on the same key fails with "Player already
exists" instead of succeeding as the spec requires. -/
theorem destroy_keeps_player_entry :
    ∃ nodes2 reqs,
      destroy (Function.update (fun _ => none) "a" (some wNodeA))
          (Function.update (fun _ => none) "g" (some (initialPlayer "a")))
          "g" =
        Except.ok (nodes2,
          Function.update (fun _ => none) "g" (some (initialPlayer "a")),
          reqs) ∧
      reqs = [Req.delete "a" "g"] ∧
      (Function.update (fun _ => none) "g" (some (initialPlayer "a"))) "g" =
        some (initialPlayer "a") ∧
      createPlayer [wNodeA]
          (Function.update (fun _ => none) "g" (some (initialPlayer "a")))
          "g" =
        Except.error
          "Player already exists. Use playerCreated() to check if a player exists." := by
  refine ⟨Function.update (Function.update (fun _ => none) "a" (some wNodeA))
      "a" (some { wNodeA with slots := Function.update wNodeA.slots "g" none }),
    [Req.delete "a" "g"], ?_, rfl, Function.update_same "g" _ _, ?_⟩
  · simp only [destroy, initialPlayer, Function.update_same]
  · simp only [createPlayer, Function.update_same, Option.isSome_some,
      if_true]

/-- Counterexample for C7: with queueing disabled, `update` on a body
carrying `encodedTrack:"A"` never writes the player's `track` field — the
source only resets the local `queue` bookkeeping and sends the PATCH — so
`track` stays `null` rather than becoming `"A"`. -/
theorem update_noQueue_track_counterexample :
    ∃ p1 reqs,
      update { botId := "bot", queue := false } "g" (initialPlayer "n")
          (trackBody "A") none = Except.ok (p1, reqs) ∧
      p1.track = none ∧ ¬ p1.track = some "A" := by
  refine ⟨{ initialPlayer "n" with queue := ([] : List String) },
    [Req.patch "n" "g" (ReqBody.full (trackBody "A")) (some false)],
    rfl, rfl, by decide⟩

/-- C7 amended: with queueing disabled, `update({encodedTrack:"A"})` on a
fresh player issues the PATCH carrying `"A"` but leaves the local `track`
field `null` (resetting the queue bookkeeping to `[]`); a subsequent
TrackEndEvent leaves `track` at `null` and `playing` at `false`. -/
theorem update_noQueue_amended (cfg : Config) (hq : cfg.queue = false)
    (gid nodeHost : String) (nodes : String → Option NodeEntry) :
    ∃ p1 ps2 p2 es,
      update cfg gid (initialPlayer nodeHost) (trackBody "A") none =
        Except.ok (p1,
          [Req.patch nodeHost gid (ReqBody.full (trackBody "A")) (some false)]) ∧
      p1.track = none ∧ p1.queue = [] ∧
      trackEnd cfg nodes nodeHost
          (Function.update (fun _ => none) gid (some p1))
          { guildId := gid, reason := "finished", track := "A" } =
        (ps2, [], es) ∧
      ps2 gid = some p2 ∧ p2.track = none ∧ p2.playing = false := by
  rcases cfg with ⟨bid, q⟩
  cases hq
  refine ⟨{ initialPlayer nodeHost with queue := ([] : List String) },
    Function.update (Function.update (fun _ => none) gid
        (some { initialPlayer nodeHost with queue := ([] : List String) }))
      gid
      (some { initialPlayer nodeHost with
        queue := [], track := none, playing := false, volume := none }),
    { initialPlayer nodeHost with
      queue := [], track := none, playing := false, volume := none },
    [⟨"trackEnd", nodes nodeHost, gid,
      { initialPlayer nodeHost with
        queue := [], track := none, playing := false, volume := none },
      "A"⟩],
    rfl, rfl, rfl, ?_, Function.update_same gid _ _, rfl, rfl⟩
  simp only [trackEnd, Function.update_same]
  rfl

/-- Witness for C7: the amended theorem at a concrete queue-disabled
configuration. -/
theorem update_noQueue_amended_witness :
    ∃ p1 ps2 p2 es,
      update { botId := "bot", queue := false } "g" (initialPlayer "n")
          (trackBody "A") none =
        Except.ok (p1,
          [Req.patch "n" "g" (ReqBody.full (trackBody "A")) (some false)]) ∧
      p1.track = none ∧ p1.queue = [] ∧
      trackEnd { botId := "bot", queue := false } (fun _ => none) "n"
          (Function.update (fun _ => none) "g" (some p1))
          { guildId := "g", reason := "finished", track := "A" } =
        (ps2, [], es) ∧
      ps2 "g" = some p2 ∧ p2.track = none ∧ p2.playing = false :=
  update_noQueue_amended { botId := "bot", queue := false } rfl "g" "n"
    (fun _ => none)

/-- C8: `skipTrack()` with queueing disabled fails with the
"Queue is disabled" condition; with queueing enabled it returns the
non-fatal `{skipped:false}` result and issues no remote call on an empty
queue, and on a non-empty queue removes exactly the head and issues
exactly one PATCH. -/
theorem skipTrack_correct (cfg : Config) (gid : String) (p : Player) :
    (cfg.queue = false →
      skipTrack cfg gid p =
        Except.error "Queue is disabled. (Config.queue = false)") ∧
    (cfg.queue = true → p.queue = [] →
      skipTrack cfg gid p =
        Except.ok ({ skipped := false, queue := ([] : List String),
                     error := some "No tracks in queue." }, p, [])) ∧
    (cfg.queue = true → p.queue ≠ [] →
      ∃ p1, skipTrack cfg gid p =
          Except.ok ({ skipped := true, queue := p.queue.tail,
                       error := none }, p1,
            [Req.patch p.node gid (ReqBody.track p.queue.tail.head?) none]) ∧
        p1.queue = p.queue.tail ∧
        p1.queue.length + 1 = p.queue.length) := by
  refine ⟨?_, ?_, ?_⟩
  · intro hq
    simp [skipTrack, hq]
  · intro hq hqueue
    simp [skipTrack, hq, hqueue]
  · intro hq hne
    have hpos : 0 < p.queue.length := List.length_pos.mpr hne
    have hlen : ¬ p.queue.length < 1 := by omega
    refine ⟨{ p with queue := p.queue.tail }, ?_, rfl, ?_⟩
    · simp [skipTrack, hq, hlen]
    · have := p.queue.length_tail
      simp only []
      omega

/-- Witness for C8: the skip theorem at concrete players exercising all
three branches. -/
theorem skipTrack_correct_witness :
    skipTrack { botId := "bot", queue := false } "g" (initialPlayer "n") =
      Except.error "Queue is disabled. (Config.queue = false)" ∧
    skipTrack { botId := "bot", queue := true } "g" (initialPlayer "n") =
      Except.ok ({ skipped := false, queue := ([] : List String),
                   error := some "No tracks in queue." },
        initialPlayer "n", []) ∧
    ∃ p1, skipTrack { botId := "bot", queue := true } "g"
          { initialPlayer "n" with queue := ["A", "B"] } =
        Except.ok ({ skipped := true,
                     queue := ({ initialPlayer "n" with queue := ["A", "B"] }).queue.tail,
                     error := none }, p1,
          [Req.patch "n" "g"
            (ReqBody.track
              ({ initialPlayer "n" with queue := ["A", "B"] }).queue.tail.head?) none]) ∧
      p1.queue = ({ initialPlayer "n" with queue := ["A", "B"] }).queue.tail ∧
      p1.queue.length + 1 =
        ({ initialPlayer "n" with queue := ["A", "B"] }).queue.length :=
  ⟨(skipTrack_correct { botId := "bot", queue := false } "g"
      (initialPlayer "n")).1 rfl,
   (skipTrack_correct { botId := "bot", queue := true } "g"
      (initialPlayer "n")).2.1 rfl rfl,
   (skipTrack_correct { botId := "bot", queue := true } "g"
      { initialPlayer "n" with queue := ["A", "B"] }).2.2 rfl (by decide)⟩

/-- C9: voice correlation through `handleRaw` — a voice-server
notification with no pending session entry is silently dropped; a
voice-state notification for the bot's identity (carrying a non-empty
session id, as the source's falsy guard `!sessionIds[guild_id]` also
drops an empty-string id) followed by a voice-server notification calls
`update` on the guild's player with `{voice:{token, endpoint, sessionId}}`
(one PATCH carrying the merged credentials) and deletes the pending entry;
a second voice-state notification before the server one overwrites the
pending session id without error (last write wins). -/
theorem handleRaw_voiceCorrelation (cfg : Config) (players : PlayersMap)
    (sessionIds : SessionIds) (g token endpoint sid sid2 userId : String)
    (p : Player) :
    (sessionIds g = none →
      handleRaw cfg players sessionIds
          (RawData.voiceServerUpdate g token endpoint) =
        (players, sessionIds, [])) ∧
    (userId = cfg.botId → sid ≠ "" → players g = some p →
      ((handleRaw cfg players sessionIds
          (RawData.voiceStateUpdate g sid userId)).2.1) g = some sid ∧
      handleRaw cfg players
          ((handleRaw cfg players sessionIds
            (RawData.voiceStateUpdate g sid userId)).2.1)
          (RawData.voiceServerUpdate g token endpoint) =
        (Function.update players g (some p),
         Function.update
           ((handleRaw cfg players sessionIds
             (RawData.voiceStateUpdate g sid userId)).2.1) g none,
         [Req.patch p.node g (ReqBody.full (voiceBody token endpoint sid))
           (some false)]) ∧
      (((handleRaw cfg players
          ((handleRaw cfg players sessionIds
            (RawData.voiceStateUpdate g sid userId)).2.1)
          (RawData.voiceServerUpdate g token endpoint)).2.1) g = none)) ∧
    (userId = cfg.botId →
      (((handleRaw cfg players
          ((handleRaw cfg players sessionIds
            (RawData.voiceStateUpdate g sid userId)).2.1)
          (RawData.voiceStateUpdate g sid2 userId)).2.1) g = some sid2)) := by
  refine ⟨?_, ?_, ?_⟩
  · intro hs
    simp [handleRaw, hs]
  · intro hu hsid hp
    have hbeq : (userId == cfg.botId) = true := beq_iff_eq.mpr hu
    have hsne : (sid == "") = false := by
      simp [hsid]
    refine ⟨?_, ?_, ?_⟩
    · simp [handleRaw, hbeq, Function.update_same]
    · simp only [handleRaw, hbeq, if_true, Function.update_same, hsne,
        Bool.false_eq_true, if_false, hp, update, voiceBody]
      rfl
    · simp only [handleRaw, hbeq, if_true, Function.update_same, hsne,
        Bool.false_eq_true, if_false, hp, update, voiceBody]
  · intro hu
    have hbeq : (userId == cfg.botId) = true := beq_iff_eq.mpr hu
    simp [handleRaw, hbeq, Function.update_same]

/-- Witness for C9: the correlation theorem at concrete guild, credential
and player values. -/
theorem handleRaw_voiceCorrelation_witness :
    ((fun _ => (none : Option String)) "g" = none →
      handleRaw { botId := "bot", queue := true }
          (Function.update (fun _ => none) "g" (some (initialPlayer "n")))
          (fun _ => none) (RawData.voiceServerUpdate "g" "tok" "ep") =
        (Function.update (fun _ => none) "g" (some (initialPlayer "n")),
         fun _ => none, [])) ∧
    (("bot" : String) = ({ botId := "bot", queue := true } : Config).botId →
      ("s1" : String) ≠ "" →
      (Function.update (fun _ => none) "g" (some (initialPlayer "n"))) "g" =
        some (initialPlayer "n") →
      ((handleRaw { botId := "bot", queue := true }
          (Function.update (fun _ => none) "g" (some (initialPlayer "n")))
          (fun _ => none)
          (RawData.voiceStateUpdate "g" "s1" "bot")).2.1) "g" = some "s1" ∧
      handleRaw { botId := "bot", queue := true }
          (Function.update (fun _ => none) "g" (some (initialPlayer "n")))
          ((handleRaw { botId := "bot", queue := true }
            (Function.update (fun _ => none) "g" (some (initialPlayer "n")))
            (fun _ => none)
            (RawData.voiceStateUpdate "g" "s1" "bot")).2.1)
          (RawData.voiceServerUpdate "g" "tok" "ep") =
        (Function.update
           (Function.update (fun _ => none) "g" (some (initialPlayer "n")))
           "g" (some (initialPlayer "n")),
         Function.update
           ((handleRaw { botId := "bot", queue := true }
             (Function.update (fun _ => none) "g" (some (initialPlayer "n")))
             (fun _ => none)
             (RawData.voiceStateUpdate "g" "s1" "bot")).2.1) "g" none,
         [Req.patch (initialPlayer "n").node "g"
           (ReqBody.full (voiceBody "tok" "ep" "s1")) (some false)]) ∧
      (((handleRaw { botId := "bot", queue := true }
          (Function.update (fun _ => none) "g" (some (initialPlayer "n")))
          ((handleRaw { botId := "bot", queue := true }
            (Function.update (fun _ => none) "g" (some (initialPlayer "n")))
            (fun _ => none)
            (RawData.voiceStateUpdate "g" "s1" "bot")).2.1)
          (RawData.voiceServerUpdate "g" "tok" "ep")).2.1) "g" = none)) ∧
    (("bot" : String) = ({ botId := "bot", queue := true } : Config).botId →
      (((handleRaw { botId := "bot", queue := true }
          (Function.update (fun _ => none) "g" (some (initialPlayer "n")))
          ((handleRaw { botId := "bot", queue := true }
            (Function.update (fun _ => none) "g" (some (initialPlayer "n")))
            (fun _ => none)
            (RawData.voiceStateUpdate "g" "s1" "bot")).2.1)
          (RawData.voiceStateUpdate "g" "s2" "bot")).2.1) "g" = some "s2")) :=
  handleRaw_voiceCorrelation { botId := "bot", queue := true }
    (Function.update (fun _ => none) "g" (some (initialPlayer "n")))
    (fun _ => none) "g" "tok" "ep" "s1" "s2" "bot" (initialPlayer "n")

/-- C10: a voice-server notification for a guild that has a pending
session entry but no player in the registry is dropped without calling
`update`, and the pending entry is retained for a later correlation. -/
theorem handleRaw_pendingNoPlayer (cfg : Config) (players : PlayersMap)
    (sessionIds : SessionIds) (g token endpoint sid : String)
    (hs : sessionIds g = some sid) (hp : players g = none) :
    handleRaw cfg players sessionIds
        (RawData.voiceServerUpdate g token endpoint) =
      (players, sessionIds, []) ∧
    ((handleRaw cfg players sessionIds
        (RawData.voiceServerUpdate g token endpoint)).2.1) g = some sid := by
  by_cases hsid : (sid == "") = true
  · constructor
    · simp [handleRaw, hs, hsid]
    · simp [handleRaw, hs, hsid]
  · constructor
    · simp [handleRaw, hs, hsid, hp]
    · simp [handleRaw, hs, hsid, hp]

/-- Witness for C10: the retention theorem at a concrete pending entry and
empty player registry. -/
theorem handleRaw_pendingNoPlayer_witness :
    handleRaw { botId := "bot", queue := true } (fun _ => none)
        (Function.update (fun _ => none) "g" (some "s1"))
        (RawData.voiceServerUpdate "g" "tok" "ep") =
      ((fun _ => none), Function.update (fun _ => none) "g" (some "s1"),
        []) ∧
    ((handleRaw { botId := "bot", queue := true } (fun _ => none)
        (Function.update (fun _ => none) "g" (some "s1"))
        (RawData.voiceServerUpdate "g" "tok" "ep")).2.1) "g" = some "s1" :=
  handleRaw_pendingNoPlayer { botId := "bot", queue := true } (fun _ => none)
    (Function.update (fun _ => none) "g" (some "s1")) "g" "tok" "ep" "s1"
    (Function.update_same "g" _ _) rfl

end FastLink
